import Mathlib

/-!
Shallow embedding of the authorization pipeline of the coffee-shop resource
server (src/backend/src/auth/auth.py, with the boundary glue of
src/backend/src/api.py).

Python exceptions are modelled by `Except PyExn`; the external effects of
`verify_decode_jwt` (the JWKS fetch via `urlopen` + `json.loads`, the calls
into the `jose` library) are modelled by an environment `VerifyEnv` recording
the outcome of each external call, and the order in which the effects are
performed is recorded in an explicit `Effect` trace.
-/

namespace CoffeeShop

/-- Module-level constant `AUTH0_DOMAIN` of auth.py. -/
def AUTH0_DOMAIN : String := "brunogarcia.eu.auth0.com"

/-- Module-level constant `ALGORITHMS` of auth.py. -/
def ALGORITHMS : List String := ["RS256"]

/-- Module-level constant `API_AUDIENCE` of auth.py. -/
def API_AUDIENCE : String := "coffe-shop"

/-- Module-level constant `BEARER` of auth.py. -/
def BEARER : String := "bearer"

/-- Module-level constant `PERMISSIONS` of auth.py. -/
def PERMISSIONS : String := "permissions"

/-- Issuer URL passed to `jwt.decode`: `'https://' + AUTH0_DOMAIN + '/'`. -/
def ISSUER : String := "https://" ++ AUTH0_DOMAIN ++ "/"

/-- A Python/JSON value, as found in a decoded JWT payload. -/
inductive PyValue where
  | str (s : String)
  | int (n : Int)
  | boolean (b : Bool)
  | pynone
  | listOf (l : List PyValue)
  | dict (entries : List (String × PyValue))

mutual

/-- Python equality (`==`) on JSON-shaped values. -/
def pvBeq : PyValue → PyValue → Bool
  | .str a, .str b => a == b
  | .int a, .int b => a == b
  | .boolean a, .boolean b => a == b
  | .pynone, .pynone => true
  | .listOf a, .listOf b => pvListBeq a b
  | .dict a, .dict b => pvDictBeq a b
  | _, _ => false

/-- Pointwise Python equality on lists. -/
def pvListBeq : List PyValue → List PyValue → Bool
  | [], [] => true
  | a :: as, b :: bs => pvBeq a b && pvListBeq as bs
  | _, _ => false

/-- Pointwise Python equality on string-keyed dicts (in entry order). -/
def pvDictBeq : List (String × PyValue) → List (String × PyValue) → Bool
  | [], [] => true
  | (k1, v1) :: as, (k2, v2) :: bs => k1 == k2 && pvBeq v1 v2 && pvDictBeq as bs
  | _, _ => false

end

/-- Exceptions that can cross the functions of auth.py.
`authError` is the `AuthError(error, status_code)` class with its
`error = {code, description}` dict; `httpAbort` is what flask's `abort(status)`
raises; the remaining constructors stand for lower-level library exceptions
(`jose` errors, `urllib`/`json` errors, `IndexError`, `TypeError`). -/
inductive PyExn where
  | authError (code : String) (description : String) (statusCode : Nat)
  | httpAbort (status : Nat)
  | joseError (msg : String)
  | urlError (msg : String)
  | indexError
  | typeError
deriving DecidableEq

/-- A decoded claims payload: a Python dict from claim name to value. -/
abbrev Payload := List (String × PyValue)

/-- Python dict lookup `d.get(key)` / `d[key]` on string-keyed dicts
(keys are unique in a Python dict, so first match is the match). -/
def pyDictGet {α : Type} : List (String × α) → String → Option α
  | [], _ => Option.none
  | (k, v) :: rest, key => if k = key then some v else pyDictGet rest key

/-- The characters Python's `str.split()` treats as whitespace. -/
def pyIsSpace (c : Char) : Bool :=
  c = ' ' || c = '\t' || c = '\n' || c = '\r' || c = Char.ofNat 11 || c = Char.ofNat 12

/-- Worker for `pySplit`: scans the characters, accumulating the current word
(reversed) in `cur`, emitting a word at each whitespace run boundary. -/
def pyWordsGo (cur : List Char) : List Char → List String
  | [] => if cur = [] then [] else [cur.reverse.asString]
  | c :: cs =>
    if pyIsSpace c then
      if cur = [] then pyWordsGo [] cs
      else cur.reverse.asString :: pyWordsGo [] cs
    else pyWordsGo (c :: cur) cs

/-- Python `str.split()` with no separator argument: split on runs of
whitespace, returning the non-empty words only. -/
def pySplit (s : String) : List String := pyWordsGo [] s.data

/-- Python `str.lower()` (ASCII case folding suffices here). -/
def pyLower (s : String) : String := (s.data.map Char.toLower).asString

/-- Python `x in l` for a list `l`: membership by Python equality. -/
def pyInList (x : PyValue) : List PyValue → Bool
  | [] => false
  | y :: ys => pvBeq x y || pyInList x ys

/-- Python `sub in s` on strings: substring containment. -/
def pyStrIn : List Char → List Char → Bool
  | needle, [] => needle.isEmpty
  | needle, c :: t => needle.isPrefixOf (c :: t) || pyStrIn needle t

/-- Python's `in` operator on a JSON-shaped container: list membership,
substring check on strings, key membership on dicts; `TypeError` when the
right operand is not a container (or an unhashable key is sought in a dict). -/
def pyIn (x : PyValue) (container : PyValue) : Except PyExn Bool :=
  match container with
  | .listOf l => .ok (pyInList x l)
  | .str s =>
    match x with
    | .str sub => .ok (pyStrIn sub.data s.data)
    | _ => .error .typeError
  | .dict entries =>
    match x with
    | .str key => .ok (entries.any (fun kv => kv.fst == key))
    | .listOf _ => .error .typeError
    | .dict _ => .error .typeError
    | _ => .ok false
  | _ => .error .typeError

/-- Function `get_token_auth_header()` of auth.py. The argument is
`request.headers.get('Authorization', None)`; Python's `if not auth:` treats
both `None` and the empty string as missing. The length checks are performed
in source order: scheme check, then `len(parts) == 1`, then `len(parts) > 2`,
then `parts[1]` is returned. `parts[0]` on an empty split raises `IndexError`. -/
def get_token_auth_header (auth : Option String) : Except PyExn String :=
  match auth with
  | Option.none =>
    .error (.authError "authorization_header_missing" "Authorization header is expected." 401)
  | some a =>
    if a = "" then
      .error (.authError "authorization_header_missing" "Authorization header is expected." 401)
    else
      match pySplit a with
      | [] => .error .indexError
      | p0 :: rest =>
        if pyLower p0 ≠ BEARER then
          .error (.authError "invalid_header" "Authorization header must start with \"Bearer\"." 401)
        else
          match rest with
          | [] => .error (.authError "invalid_header" "Token not found." 401)
          | [p1] => .ok p1
          | _ :: _ :: _ =>
            .error (.authError "invalid_header" "Authorization header must be bearer token." 401)

/-- Function `check_permissions(permission, payload)` of auth.py. -/
def check_permissions (permission : String) (payload : Payload) : Except PyExn Bool :=
  match pyDictGet payload PERMISSIONS with
  | Option.none =>
    .error (.authError "invalid_claims" "Permissions not included in JWT." 400)
  | some v =>
    match pyIn (.str permission) v with
    | .error e => .error e
    | .ok mem =>
      if !mem then .error (.authError "unauthorized" "Permission not found." 403)
      else .ok true

/-- One entry of the fetched JWKS `keys` array, with the five fields
auth.py reads from it. -/
structure Jwk where
  kty : String
  kid : String
  use : String
  n : String
  e : String
deriving DecidableEq

/-- The `rsa_key` dict built by `verify_decode_jwt` from a matching JWKS
entry: the fields `kty, kid, use, n, e`. -/
structure RsaKey where
  kty : String
  kid : String
  use : String
  n : String
  e : String
deriving DecidableEq

/-- The dict literal of auth.py lines 133-139: copy the five fields of a
matching key into `rsa_key`. -/
def toRsaKey (k : Jwk) : RsaKey :=
  { kty := k.kty, kid := k.kid, use := k.use, n := k.n, e := k.e }

/-- The key-selection loop of auth.py lines 131-139: `rsa_key` starts as the
empty dict (`Option.none`) and is overwritten by every key whose `kid`
matches, so the last match in iteration order survives. -/
def selectKey (keys : List Jwk) (kid : String) : Option RsaKey :=
  keys.foldl (fun acc key => if key.kid == kid then some (toRsaKey key) else acc) Option.none

/-- The last key of the sequence whose `kid` matches, if any. -/
def lastMatchingKey (keys : List Jwk) (kid : String) : Option Jwk :=
  keys.reverse.find? (fun key => key.kid == kid)

/-- Outcome of the `jwt.decode(...)` call: success, or one of the exception
classes distinguished by the `try/except` of auth.py lines 141-168. -/
inductive DecodeErr where
  | expiredSignature
  | jwtClaims
  | other (e : PyExn)

/-- External effects performed by `verify_decode_jwt`, in order:
`fetchJwks` is the `urlopen` + `json.loads` of the well-known JWKS URL,
`inspectToken` is `jwt.get_unverified_header(token)`, `cryptoDecode` is
`jwt.decode(...)`. -/
inductive Effect where
  | fetchJwks
  | inspectToken
  | cryptoDecode
deriving DecidableEq

/-- Environment recording the outcomes of the external calls made by
`verify_decode_jwt`: the JWKS fetch+parse (its `keys` array on success, the
raw `urllib`/`json` exception on failure) and the two `jose` entry points. -/
structure VerifyEnv where
  jwks : Except PyExn (List Jwk)
  getUnverifiedHeader : String → Except PyExn (List (String × String))
  jwtDecode : String → RsaKey → List String → String → String → Except DecodeErr Payload

/-- The `try/except` of auth.py lines 141-168 around `jwt.decode`:
expiry, claims, and every other exception are mapped to their `AuthError`s. -/
def decodeOutcome : Except DecodeErr Payload → Except PyExn Payload
  | .ok payload => .ok payload
  | .error .expiredSignature => .error (.authError "token_expired" "Token expired." 401)
  | .error .jwtClaims =>
    .error (.authError "invalid_claims" "Incorrect claims. Please, check the audience and issuer." 401)
  | .error (.other _) =>
    .error (.authError "invalid_header" "Unable to parse authentication token." 400)

/-- Function `verify_decode_jwt(token)` of auth.py, returning the trace of
external effects performed together with the result. The JWKS fetch comes
first (lines 120-121), then `jwt.get_unverified_header` (line 122), the `kid`
presence check (line 125), the key-selection loop, and finally either the
`jwt.decode` try/except (when `rsa_key` is non-empty) or the
key-not-found `AuthError` (line 170). Failures of the external calls
propagate as the raw exception. -/
def verify_decode_jwt (env : VerifyEnv) (token : String) :
    List Effect × Except PyExn Payload :=
  match env.jwks with
  | .error e => ([Effect.fetchJwks], .error e)
  | .ok keys =>
    match env.getUnverifiedHeader token with
    | .error e => ([Effect.fetchJwks, Effect.inspectToken], .error e)
    | .ok unverifiedHeader =>
      match pyDictGet unverifiedHeader "kid" with
      | Option.none =>
        ([Effect.fetchJwks, Effect.inspectToken],
         .error (.authError "invalid_header" "Authorization malformed." 401))
      | some kid =>
        match selectKey keys kid with
        | Option.none =>
          ([Effect.fetchJwks, Effect.inspectToken],
           .error (.authError "invalid_header" "Unable to find the appropriate key." 400))
        | some rsaKey =>
          ([Effect.fetchJwks, Effect.inspectToken, Effect.cryptoDecode],
           decodeOutcome (env.jwtDecode token rsaKey ALGORITHMS API_AUDIENCE ISSUER))

/-- The `wrapper` closure of `requires_auth(permission)` in auth.py lines
189-198, up to the call of the decorated function: on success the decoded
payload (the value handed to the protected operation as first argument) is
returned. The `try/except Exception` around extraction and verification
catches every exception — `AuthError` included, since `AuthError` subclasses
`Exception` — and replaces it by flask's `abort(401)`. `check_permissions`
runs outside that `try`, so its exceptions propagate unmodified. -/
def requires_auth_wrapper (permission : String) (env : VerifyEnv) (auth : Option String) :
    Except PyExn Payload :=
  match
    (match get_token_auth_header auth with
     | .error _ => Except.error (PyExn.httpAbort 401)
     | .ok token =>
       match (verify_decode_jwt env token).snd with
       | .error _ => Except.error (PyExn.httpAbort 401)
       | .ok payload => Except.ok payload)
  with
  | .error e => .error e
  | .ok payload =>
    match check_permissions permission payload with
    | .error e => .error e
    | .ok _ => .ok payload

/-- A sample JWKS entry. -/
def jwkA : Jwk := { kty := "RSA", kid := "abc123", use := "sig", n := "modulus-a", e := "AQAB" }

/-- An environment whose verification stage is never reached. -/
def envUnused : VerifyEnv :=
  { jwks := .ok []
    getUnverifiedHeader := fun _ => .error (.joseError "unused")
    jwtDecode := fun _ _ _ _ _ => .error (.other .typeError) }

/-- An environment whose token declares a kid absent from the key set. -/
def envUnknownKid : VerifyEnv :=
  { jwks := .ok [jwkA]
    getUnverifiedHeader := fun _ => .ok [("kid", "zzz")]
    jwtDecode := fun _ _ _ _ _ => .error (.other .typeError) }

/-- A payload holding one permission. -/
def payloadPerm : Payload := [("permissions", .listOf [.str "get:drinks-detail"])]

/-- An environment that decodes every token to `payloadPerm`. -/
def envPerm : VerifyEnv :=
  { jwks := .ok [jwkA]
    getUnverifiedHeader := fun _ => .ok [("kid", "abc123")]
    jwtDecode := fun _ _ _ _ _ => .ok payloadPerm }

/-- First of two JWKS entries sharing the kid `dup`. -/
def jwkDup1 : Jwk := { kty := "RSA", kid := "dup", use := "sig", n := "modulus-1", e := "AQAB" }

/-- Second of two JWKS entries sharing the kid `dup`. -/
def jwkDup2 : Jwk := { kty := "RSA", kid := "dup", use := "sig", n := "modulus-2", e := "AQAB" }

/-- An environment with two keys of kid `dup`; its decode records which key's
modulus was used, exposing the selected key in the payload. -/
def envDup : VerifyEnv :=
  { jwks := .ok [jwkDup1, jwkDup2]
    getUnverifiedHeader := fun _ => .ok [("kid", "dup")]
    jwtDecode := fun _ key _ _ _ => .ok [("verified-with-n", .str key.n)] }

/-- An environment where `jwt.get_unverified_header` raises (malformed token). -/
def envHdrFail : VerifyEnv :=
  { jwks := .ok [jwkA]
    getUnverifiedHeader := fun _ => .error (.joseError "Error decoding token headers.")
    jwtDecode := fun _ _ _ _ _ => .error (.other .typeError) }

/-- An environment where `jwt.decode` raises a generic verification error
(bad signature). -/
def envBadSig : VerifyEnv :=
  { jwks := .ok [jwkA]
    getUnverifiedHeader := fun _ => .ok [("kid", "abc123")]
    jwtDecode := fun _ _ _ _ _ => .error (.other (.joseError "Signature verification failed.")) }

/-- A payload as decoded from a fully valid token. -/
def payloadOK : Payload :=
  [("iss", .str ISSUER),
   ("permissions", .listOf [.str "get:drinks-detail", .str "post:drinks"])]

/-- An environment modelling a fully successful verification. -/
def envOK : VerifyEnv :=
  { jwks := .ok [jwkA]
    getUnverifiedHeader := fun _ => .ok [("kid", "abc123")]
    jwtDecode := fun _ _ _ _ _ => .ok payloadOK }

/-- An environment whose JWKS fetch fails; its token has no kid at all. -/
def envDown : VerifyEnv :=
  { jwks := .error (.urlError "urlopen: connection refused")
    getUnverifiedHeader := fun _ => .ok []
    jwtDecode := fun _ _ _ _ _ => .error (.other .typeError) }

/-- The key-selection fold, run from any accumulator, yields the last
matching key (first match of the reversed sequence), or the accumulator
when no key matches. -/
theorem selectKey_go (kid : String) (keys : List Jwk) (acc : Option RsaKey) :
    keys.foldl (fun acc key => if key.kid == kid then some (toRsaKey key) else acc) acc
      = match keys.reverse.find? (fun key => key.kid == kid) with
        | some k => some (toRsaKey k)
        | Option.none => acc := by
  induction keys generalizing acc with
  | nil => rfl
  | cons k ks ih =>
    simp only [List.foldl_cons, List.reverse_cons, List.find?_append, ih]
    cases h : ks.reverse.find? (fun key => key.kid == kid) with
    | none =>
      simp only [Option.or, List.find?_cons, List.find?_nil]
      cases h2 : k.kid == kid <;> simp [h2]
    | some k2 => simp only [Option.or]

/-- C1: the gate does not propagate an `AuthFailure` raised during extraction
or verification; its `except Exception` catches `AuthError` as well and
replaces it by the generic `abort(401)`. Shown at a concrete request whose
scheme is not `Bearer`: extraction raises the specific `invalid_header`
`AuthError`, yet the gate's result is the generic 401 abort, a different
value. -/
theorem gate_discards_specific_auth_error :
    get_token_auth_header (some "Token abc")
      = .error (.authError "invalid_header" "Authorization header must start with \"Bearer\"." 401)
  ∧ requires_auth_wrapper "post:drinks" envUnused (some "Token abc")
      = .error (.httpAbort 401)
  ∧ PyExn.httpAbort 401
      ≠ PyExn.authError "invalid_header" "Authorization header must start with \"Bearer\"." 401 :=
  ⟨rfl, rfl, by decide⟩

/-- C2: on a request with no Authorization header, extraction raises
`AuthError` with code `authorization_header_missing` and status 401, but the
gate converts it to flask's generic `abort(401)`: the 401 status matches the
claim, the specific error code never reaches the boundary. -/
theorem missing_header_generic_abort :
    requires_auth_wrapper "get:drinks-detail" envUnused Option.none
      = .error (.httpAbort 401)
  ∧ get_token_auth_header Option.none
      = .error (.authError "authorization_header_missing" "Authorization header is expected." 401)
  ∧ PyExn.httpAbort 401
      ≠ PyExn.authError "authorization_header_missing" "Authorization header is expected." 401 :=
  ⟨rfl, rfl, by decide⟩

/-- C3: a token whose kid matches no key makes `verify_decode_jwt` raise the
400 `invalid_header` `AuthError`, but the gate converts it to the generic
`abort(401)`: the boundary sees status 401 with no code, not the claimed
400 with code `invalid_header`. -/
theorem unknown_kid_generic_abort :
    (verify_decode_jwt envUnknownKid "sometoken").snd
      = .error (.authError "invalid_header" "Unable to find the appropriate key." 400)
  ∧ requires_auth_wrapper "get:drinks-detail" envUnknownKid (some "Bearer sometoken")
      = .error (.httpAbort 401)
  ∧ PyExn.httpAbort 401
      ≠ PyExn.authError "invalid_header" "Unable to find the appropriate key." 400 :=
  ⟨rfl, rfl, by decide⟩

/-- C4: `check_permissions` raises the 400 `invalid_claims` failure exactly
when the payload lacks the `permissions` key, raises the 403 `unauthorized`
failure exactly when the key is present (as a permission list) but the
required permission is not a member, returns `true` otherwise, and — being
invoked outside the gate's `try` — its failures reach the boundary
unmodified through `requires_auth`. -/
theorem check_permissions_spec (permission : String) (payload : Payload) :
    (pyDictGet payload PERMISSIONS = Option.none →
      check_permissions permission payload
        = .error (.authError "invalid_claims" "Permissions not included in JWT." 400))
  ∧ (∀ l, pyDictGet payload PERMISSIONS = some (.listOf l) →
      pyInList (.str permission) l = false →
      check_permissions permission payload
        = .error (.authError "unauthorized" "Permission not found." 403))
  ∧ (∀ l, pyDictGet payload PERMISSIONS = some (.listOf l) →
      pyInList (.str permission) l = true →
      check_permissions permission payload = .ok true)
  ∧ (∀ env auth token e,
      get_token_auth_header auth = .ok token →
      (verify_decode_jwt env token).snd = .ok payload →
      check_permissions permission payload = .error e →
      requires_auth_wrapper permission env auth = .error e) := by
  refine ⟨?_, ?_, ?_, ?_⟩
  · intro h
    simp [check_permissions, h]
  · intro l hl hmem
    simp [check_permissions, hl, pyIn, hmem]
  · intro l hl hmem
    simp [check_permissions, hl, pyIn, hmem]
  · intro env auth token e htok hver hcp
    simp [requires_auth_wrapper, htok, hver, hcp]

/-- Witness for C4: both failure modes and the success mode at concrete
payloads, and the 403 failure surfacing through the gate. -/
theorem check_permissions_spec_app :
    check_permissions "post:drinks" []
      = .error (.authError "invalid_claims" "Permissions not included in JWT." 400)
  ∧ check_permissions "post:drinks" payloadPerm
      = .error (.authError "unauthorized" "Permission not found." 403)
  ∧ check_permissions "get:drinks-detail" payloadPerm = .ok true
  ∧ requires_auth_wrapper "post:drinks" envPerm (some "Bearer sometoken")
      = .error (.authError "unauthorized" "Permission not found." 403) := by
  refine ⟨?_, ?_, ?_, ?_⟩
  · exact (check_permissions_spec "post:drinks" []).1 rfl
  · exact (check_permissions_spec "post:drinks" payloadPerm).2.1 _ rfl rfl
  · exact (check_permissions_spec "get:drinks-detail" payloadPerm).2.2.1 _ rfl rfl
  · exact (check_permissions_spec "post:drinks" payloadPerm).2.2.2
      envPerm (some "Bearer sometoken") "sometoken" _ rfl rfl rfl

/-- C5: key selection is the fold of a linear scan in sequence order whose
result is the last key matching the token's kid (its five fields copied into
the verification key by `toRsaKey`), and when a key is selected, the result
of `verify_decode_jwt` is the outcome of `jwt.decode` run with exactly that
key. -/
theorem selectKey_last_match :
    (∀ keys kid, selectKey keys kid = (lastMatchingKey keys kid).map toRsaKey)
  ∧ (∀ env token keys unverifiedHeader kid rsaKey,
      env.jwks = .ok keys →
      env.getUnverifiedHeader token = .ok unverifiedHeader →
      pyDictGet unverifiedHeader "kid" = some kid →
      selectKey keys kid = some rsaKey →
      (verify_decode_jwt env token).snd
        = decodeOutcome (env.jwtDecode token rsaKey ALGORITHMS API_AUDIENCE ISSUER)) := by
  constructor
  · intro keys kid
    unfold selectKey lastMatchingKey
    rw [selectKey_go]
    cases keys.reverse.find? (fun key => key.kid == kid) <;> simp
  · intro env token keys uh kid rsaKey hjw hhd hkid hsel
    simp [verify_decode_jwt, hjw, hhd, hkid, hsel]

/-- Witness for C5: with two keys sharing kid `dup`, the second (last) one is
selected, and verification runs with that key's modulus. -/
theorem selectKey_last_match_app :
    selectKey [jwkDup1, jwkDup2] "dup" = some (toRsaKey jwkDup2)
  ∧ (verify_decode_jwt envDup "sometoken").snd
      = .ok [("verified-with-n", .str "modulus-2")] := by
  constructor
  · exact selectKey_last_match.1 [jwkDup1, jwkDup2] "dup"
  · exact selectKey_last_match.2 envDup "sometoken" [jwkDup1, jwkDup2]
      [("kid", "dup")] "dup" (toRsaKey jwkDup2) rfl rfl rfl rfl

/-- C6: for a present header value, the checks run in source order on the
whitespace split: a first part not lowercasing to `bearer` is the 401 scheme
failure; exactly one part (the scheme alone) is the 401 `Token not found.`
failure; more than two parts is the 401 bearer-token failure; exactly two
parts with a `bearer` scheme returns the second part verbatim. -/
theorem token_extractor_cases (a : String) :
    (∀ p0 rest, pySplit a = p0 :: rest → pyLower p0 ≠ BEARER →
      get_token_auth_header (some a)
        = .error (.authError "invalid_header" "Authorization header must start with \"Bearer\"." 401))
  ∧ (∀ p0, pySplit a = [p0] → pyLower p0 = BEARER →
      get_token_auth_header (some a)
        = .error (.authError "invalid_header" "Token not found." 401))
  ∧ (∀ p0 p1 p2 rest, pySplit a = p0 :: p1 :: p2 :: rest → pyLower p0 = BEARER →
      get_token_auth_header (some a)
        = .error (.authError "invalid_header" "Authorization header must be bearer token." 401))
  ∧ (∀ p0 p1, pySplit a = [p0, p1] → pyLower p0 = BEARER →
      get_token_auth_header (some a) = .ok p1) := by
  have hne : ∀ {w : String} {ws : List String}, pySplit a = w :: ws → ¬ a = "" := by
    intro w ws h he
    subst he
    exact List.noConfusion ((rfl : pySplit "" = []).symm.trans h)
  refine ⟨?_, ?_, ?_, ?_⟩
  · intro p0 rest hsplit hbear
    simp only [get_token_auth_header]
    rw [if_neg (hne hsplit)]
    simp only [hsplit]
    rw [if_pos hbear]
  · intro p0 hsplit hbear
    simp only [get_token_auth_header]
    rw [if_neg (hne hsplit)]
    simp only [hsplit]
    rw [if_neg (fun h => h hbear)]
  · intro p0 p1 p2 rest hsplit hbear
    simp only [get_token_auth_header]
    rw [if_neg (hne hsplit)]
    simp only [hsplit]
    rw [if_neg (fun h => h hbear)]
  · intro p0 p1 hsplit hbear
    simp only [get_token_auth_header]
    rw [if_neg (hne hsplit)]
    simp only [hsplit]
    rw [if_neg (fun h => h hbear)]

/-- Witness for C6: each of the four header shapes at a concrete header. -/
theorem token_extractor_cases_app :
    get_token_auth_header (some "Basic abc")
      = .error (.authError "invalid_header" "Authorization header must start with \"Bearer\"." 401)
  ∧ get_token_auth_header (some "Bearer")
      = .error (.authError "invalid_header" "Token not found." 401)
  ∧ get_token_auth_header (some "Bearer abc def")
      = .error (.authError "invalid_header" "Authorization header must be bearer token." 401)
  ∧ get_token_auth_header (some "BEARER sometoken") = .ok "sometoken" := by
  refine ⟨?_, ?_, ?_, ?_⟩
  · exact (token_extractor_cases "Basic abc").1 "Basic" ["abc"] rfl (by decide)
  · exact (token_extractor_cases "Bearer").2.1 "Bearer" rfl rfl
  · exact (token_extractor_cases "Bearer abc def").2.2.1 "Bearer" "abc" "def" [] rfl rfl
  · exact (token_extractor_cases "BEARER sometoken").2.2.2 "BEARER" "sometoken" rfl rfl

/-- C7 counterexample: a token malformed enough that
`jwt.get_unverified_header` raises is a verification failure outside the
claim's four exclusions, yet `verify_decode_jwt` propagates the raw `jose`
exception instead of the claimed 400 `invalid_header` `AuthError`. -/
theorem malformed_header_raw_error :
    (verify_decode_jwt envHdrFail "notajwt").snd
      = .error (.joseError "Error decoding token headers.")
  ∧ (verify_decode_jwt envHdrFail "notajwt").snd
      ≠ .error (.authError "invalid_header" "Unable to parse authentication token." 400) := by
  constructor
  · rfl
  · have h1 : (verify_decode_jwt envHdrFail "notajwt").snd
      = .error (.joseError "Error decoding token headers.") := rfl
    rw [h1]
    intro h
    injection h with h2
    exact PyExn.noConfusion h2

/-- C7 amended: every failure raised by the `jwt.decode` call (reached once a
key has been selected) other than expiry and claims errors — a bad signature
in particular — yields the 400 `invalid_header` failure with description
`Unable to parse authentication token.`; failures of the earlier
header-decoding step propagate raw instead. -/
theorem decode_other_failure_invalid_header (env : VerifyEnv) (token : String)
    (keys : List Jwk) (unverifiedHeader : List (String × String)) (kid : String)
    (rsaKey : RsaKey) (e : PyExn)
    (hjw : env.jwks = .ok keys)
    (hhd : env.getUnverifiedHeader token = .ok unverifiedHeader)
    (hkid : pyDictGet unverifiedHeader "kid" = some kid)
    (hsel : selectKey keys kid = some rsaKey)
    (hdec : env.jwtDecode token rsaKey ALGORITHMS API_AUDIENCE ISSUER = .error (.other e)) :
    (verify_decode_jwt env token).snd
      = .error (.authError "invalid_header" "Unable to parse authentication token." 400) := by
  simp [verify_decode_jwt, hjw, hhd, hkid, hsel, hdec, decodeOutcome]

/-- Witness for C7's amended statement: a bad signature at a concrete
environment yields the 400 `invalid_header` failure. -/
theorem decode_other_failure_invalid_header_app :
    (verify_decode_jwt envBadSig "sometoken").snd
      = .error (.authError "invalid_header" "Unable to parse authentication token." 400) :=
  decode_other_failure_invalid_header envBadSig "sometoken" [jwkA] [("kid", "abc123")]
    "abc123" (toRsaKey jwkA) (.joseError "Signature verification failed.") rfl rfl rfl rfl rfl

/-- C8: when the gate succeeds, the payload handed to the protected operation
is exactly the payload decoded from the extracted token — neither
`check_permissions` nor the gate modifies it. -/
theorem success_payload_unmodified (permission : String) (env : VerifyEnv)
    (auth : Option String) (p : Payload)
    (h : requires_auth_wrapper permission env auth = .ok p) :
    ∃ token, get_token_auth_header auth = .ok token
      ∧ (verify_decode_jwt env token).snd = .ok p := by
  unfold requires_auth_wrapper at h
  cases htok : get_token_auth_header auth with
  | error e =>
    rw [htok] at h
    simp at h
  | ok token =>
    rw [htok] at h
    dsimp only [] at h
    cases hver : (verify_decode_jwt env token).snd with
    | error e =>
      rw [hver] at h
      simp at h
    | ok q =>
      rw [hver] at h
      dsimp only [] at h
      cases hcp : check_permissions permission q with
      | error e =>
        rw [hcp] at h
        simp at h
      | ok b =>
        rw [hcp] at h
        simp at h
        subst h
        exact ⟨token, rfl, hver⟩

/-- Witness for C8: a concrete successful run hands over exactly the decoded
payload. -/
theorem success_payload_unmodified_app :
    requires_auth_wrapper "get:drinks-detail" envOK (some "Bearer sometoken") = .ok payloadOK
  ∧ ∃ token, get_token_auth_header (some "Bearer sometoken") = .ok token
      ∧ (verify_decode_jwt envOK token).snd = .ok payloadOK :=
  ⟨rfl, success_payload_unmodified "get:drinks-detail" envOK (some "Bearer sometoken") payloadOK rfl⟩

/-- C9: a header value that is non-empty but splits into zero parts (all
whitespace) makes `get_token_auth_header` fail with `IndexError` on
`parts[0]`, not with a typed `AuthError`. -/
theorem whitespace_header_index_error (a : String) (h1 : ¬ a = "")
    (h2 : pySplit a = []) :
    get_token_auth_header (some a) = .error PyExn.indexError := by
  simp only [get_token_auth_header]
  rw [if_neg h1]
  simp only [h2]

/-- Witness for C9: the single-space header. -/
theorem whitespace_header_index_error_app :
    get_token_auth_header (some " ") = .error PyExn.indexError :=
  whitespace_header_index_error " " (by decide) rfl

/-- C10: the JWKS fetch is the first effect of every `verify_decode_jwt`
call — also for tokens without a kid — and a fetch (or JSON-parse) failure
surfaces as that raw exception, never as an `AuthError` constructed inside
`verify_decode_jwt`. -/
theorem jwks_fetch_first (env : VerifyEnv) (token : String) :
    (verify_decode_jwt env token).fst.head? = some Effect.fetchJwks
  ∧ (∀ e, env.jwks = .error e →
      verify_decode_jwt env token = ([Effect.fetchJwks], .error e)) := by
  constructor
  · cases hj : env.jwks with
    | error e => simp [verify_decode_jwt, hj]
    | ok keys =>
      cases hh : env.getUnverifiedHeader token with
      | error e => simp [verify_decode_jwt, hj, hh]
      | ok uh =>
        cases hk : pyDictGet uh "kid" with
        | none => simp [verify_decode_jwt, hj, hh, hk]
        | some kid =>
          cases hs : selectKey keys kid with
          | none => simp [verify_decode_jwt, hj, hh, hk, hs]
          | some r => simp [verify_decode_jwt, hj, hh, hk, hs]
  · intro e he
    simp [verify_decode_jwt, he]

/-- Witness for C10: a failed fetch surfaces raw, for a token with no kid. -/
theorem jwks_fetch_first_app :
    verify_decode_jwt envDown "tokenwithoutkid"
      = ([Effect.fetchJwks], .error (.urlError "urlopen: connection refused")) :=
  (jwks_fetch_first envDown "tokenwithoutkid").2 (.urlError "urlopen: connection refused") rfl

end CoffeeShop
